import Mathlib

/-!
Verification of the NEO data-collection pipeline (data_extraction.py and
database_setup.py) against its natural-language specification.

The embedding models:
  - JSON values (API pages) as an inductive type `Json`;
  - Python `float()` / `int()` coercions as `Option`-returning functions;
  - the record normalizer `extract_asteroid_fields` as explicit state
    passing over the two accumulator lists, returning the final state
    together with a flag telling whether a Python exception
    (KeyError / TypeError / ValueError) was raised — an exception leaves
    the appends already made in place, exactly as in-place list mutation
    does in Python;
  - the fetch client `fetch_neo_data` over an abstract HTTP outcome;
  - the collection driver `collect_data` as a fuel-indexed loop over an
    oracle giving the HTTP outcome of each successive request (the fuel
    branch is proved unreachable);
  - the store writer `insert_data` over lists standing for table rows.
-/

namespace Nasa

/-- JSON values. `num q` stands for every value that Python `float()`
coerces to the rational `q`: JSON numbers as well as numeric strings
(the NASA feed serialises velocities and distances as strings); `str`
is kept for non-numeric strings such as dates and body names. -/
inductive Json : Type where
  | null : Json
  | bool : Bool → Json
  | num : ℚ → Json
  | str : String → Json
  | arr : List Json → Json
  | obj : List (String × Json) → Json

namespace Json

/-- Field lookup `j[k]` on a JSON object. Returns `none` both when the key
is absent (Python KeyError) and when `j` is not an object (TypeError):
either way the source raises at that subscript. -/
def getField : Json → String → Option Json
  | .obj fields, k => fields.lookup k
  | _, _ => none

/-- Chained subscripts `j[k1][k2]...`. -/
def getPath (j : Json) : List String → Option Json
  | [] => some j
  | k :: ks =>
    match j.getField k with
    | some v => v.getPath ks
    | none => none

/-- Python `float(x)`: succeeds on numbers and numeric strings (both are
`num` in this model) and on booleans; raises (hence `none`) on anything
else. -/
def toFloat : Json → Option ℚ
  | .num q => some q
  | .bool b => some (if b then 1 else 0)
  | _ => none

/-- Python `int(x)`: on a number, truncation toward zero; on a boolean, 0
or 1; raises on anything else. The ids this program coerces are
integer-valued, so the truncation detail is never exercised. -/
def toInt : Json → Option Int
  | .num q => some (q.num.tdiv (q.den : Int))
  | .bool b => some (if b then 1 else 0)
  | _ => none

end Json

/-- One row of the `asteroid_data` accumulator: the dict built at lines
32-39 of data_extraction.py. Fields that the source stores without
coercion (`name`, `is_potentially_hazardous_asteroid`,
`close_approach_date`, `orbiting_body`) keep type `Json`. -/
structure AsteroidInfo : Type where
  id : Int
  name : Json
  absolute_magnitude_h : ℚ
  estimated_diameter_min_km : ℚ
  estimated_diameter_max_km : ℚ
  is_potentially_hazardous_asteroid : Json

/-- One row of the `approach_data` accumulator: the dict built at lines
43-51 of data_extraction.py. -/
structure ApproachInfo : Type where
  neo_reference_id : Int
  close_approach_date : Json
  relative_velocity_kmph : ℚ
  astronomical : ℚ
  miss_distance_km : ℚ
  miss_distance_lunar : ℚ
  orbiting_body : Json

/-- Upstream minimum-diameter value after `float()`, i.e.
`float(asteroid["estimated_diameter"]["kilometers"]["estimated_diameter_min"])`. -/
def diamMinRaw (asteroid : Json) : Option ℚ :=
  (asteroid.getPath ["estimated_diameter", "kilometers", "estimated_diameter_min"]).bind Json.toFloat

/-- Upstream maximum-diameter value after `float()`. -/
def diamMaxRaw (asteroid : Json) : Option ℚ :=
  (asteroid.getPath ["estimated_diameter", "kilometers", "estimated_diameter_max"]).bind Json.toFloat

/-- Lines 32-39: builds `asteroid_info`. Python evaluates the dict-literal
values in order; the first missing key or failed coercion raises, which
this model renders as `none`. -/
def buildAsteroidInfo (asteroid : Json) : Option AsteroidInfo :=
  match (asteroid.getField "id").bind Json.toInt with
  | none => none
  | some i =>
  match asteroid.getField "name" with
  | none => none
  | some nm =>
  match Json.toFloat ((asteroid.getField "absolute_magnitude_h").getD (Json.num 0)) with
  | none => none
  | some mag =>
  match diamMinRaw asteroid with
  | none => none
  | some dmin =>
  match diamMaxRaw asteroid with
  | none => none
  | some dmax =>
  match asteroid.getField "is_potentially_hazardous_asteroid" with
  | none => none
  | some haz => some ⟨i, nm, mag, dmin, dmax, haz⟩

/-- Lines 43-51: builds `approach_info`. The source recomputes
`int(asteroid["id"])` for `neo_reference_id`, so the asteroid object is
passed in alongside the approach entry. -/
def buildApproachInfo (asteroid approach : Json) : Option ApproachInfo :=
  match (asteroid.getField "id").bind Json.toInt with
  | none => none
  | some ref =>
  match approach.getField "close_approach_date" with
  | none => none
  | some dt =>
  match (approach.getPath ["relative_velocity", "kilometers_per_hour"]).bind Json.toFloat with
  | none => none
  | some vel =>
  match (approach.getPath ["miss_distance", "astronomical"]).bind Json.toFloat with
  | none => none
  | some au =>
  match (approach.getPath ["miss_distance", "kilometers"]).bind Json.toFloat with
  | none => none
  | some mkm =>
  match (approach.getPath ["miss_distance", "lunar"]).bind Json.toFloat with
  | none => none
  | some mlun =>
  match approach.getField "orbiting_body" with
  | none => none
  | some orb => some ⟨ref, dt, vel, au, mkm, mlun, orb⟩

/-- Accumulator state of the extractor object: `self.asteroid_data` and
`self.approach_data`. -/
structure ExtractorState : Type where
  asteroid_data : List AsteroidInfo
  approach_data : List ApproachInfo

/-- Inner loop, lines 42-54: `for approach in asteroid["close_approach_data"]`.
Both `self.asteroid_data.append(asteroid_info)` and
`self.approach_data.append(approach_info)` sit INSIDE this loop in the
source, so `asteroid_info` is appended once per close-approach entry. A
failed build raises, stopping the loop with the appends made so far in
place (`true` = exception propagating). -/
def approachLoop (asteroid : Json) (info : AsteroidInfo) :
    ExtractorState → List Json → ExtractorState × Bool
  | st, [] => (st, false)
  | st, ap :: rest =>
    match buildApproachInfo asteroid ap with
    | none => (st, true)
    | some apInfo =>
        approachLoop asteroid info
          ⟨st.asteroid_data ++ [info], st.approach_data ++ [apInfo]⟩ rest

/-- Processing of one asteroid record (lines 30-54): build `asteroid_info`,
then iterate its close-approach list. Iterating a value that is not a
list raises (TypeError), modelled as the `true` branches. -/
def asteroidStep (st : ExtractorState) (asteroid : Json) : ExtractorState × Bool :=
  match buildAsteroidInfo asteroid with
  | none => (st, true)
  | some info =>
    match asteroid.getField "close_approach_data" with
    | some (Json.arr aps) => approachLoop asteroid info st aps
    | some _ => (st, true)
    | none => (st, true)

/-- Loop over the asteroids of one date (line 30), short-circuiting on a
raised exception. -/
def asteroidsLoop : ExtractorState → List Json → ExtractorState × Bool
  | st, [] => (st, false)
  | st, a :: rest =>
    match asteroidStep st a with
    | (st2, true) => (st2, true)
    | (st2, false) => asteroidsLoop st2 rest

/-- Loop over the `date → asteroids` items (line 29). Python dict
iteration follows insertion order, which the association list preserves.
A date whose value is not a list raises when iterated. -/
def datesLoop : ExtractorState → List (String × Json) → ExtractorState × Bool
  | st, [] => (st, false)
  | st, (_, Json.arr asts) :: rest =>
    match asteroidsLoop st asts with
    | (st2, true) => (st2, true)
    | (st2, false) => datesLoop st2 rest
  | st, (_, _) :: _ => (st, true)

/-- Lines 27-54, `extract_asteroid_fields`: mutates the two accumulator
lists in place; an exception leaves the appends already made and
propagates (`true`). -/
def extract_asteroid_fields (st : ExtractorState) (neo_data : Json) :
    ExtractorState × Bool :=
  match neo_data.getField "near_earth_objects" with
  | some (Json.obj items) => datesLoop st items
  | some _ => (st, true)
  | none => (st, true)

/-! Fetch client (lines 15-25). -/

/-- Outcome of the single `requests.get` call issued by `fetch_neo_data`:
either the request itself raised a `RequestException` (connection error,
timeout, ...), or a response arrived with a status code and a body that
is `some j` when `response.json()` parses to `j` and `none` when the body
is not valid JSON. -/
inductive HttpOutcome : Type where
  | netError : HttpOutcome
  | response : Nat → Option Json → HttpOutcome

/-- Predicate for a 2xx status code, used to state the spec's claim about
the fetch client. -/
def is2xx (status : Nat) : Prop := 200 ≤ status ∧ status < 300

/-- Lines 15-25, `fetch_neo_data`: one GET, then `raise_for_status()` —
which per the requests library raises exactly for status codes 400-599 —
then `response.json()`. Every `RequestException` (including the
`JSONDecodeError` raised by an unparseable body, a `RequestException`
subclass in requests >= 2.27) is caught and turned into `None`. No loop,
no second request: the function consumes exactly one HTTP outcome. -/
def fetch_neo_data (outcome : HttpOutcome) : Option Json :=
  match outcome with
  | .netError => none
  | .response status body =>
      if 400 ≤ status ∧ status < 600 then none
      else
        match body with
        | some j => some j
        | none => none

/-! Collection driver (lines 56-95). -/

/-- Ghost record of one `fetch_neo_data` call made by the driver:
the window start (in days since 2024-01-01, the driver's fixed start
date) and whether the fetch returned data. The window end is always
`windowStart + 6`. -/
structure FetchEvent : Type where
  windowStart : Nat
  success : Bool
deriving DecidableEq

/-- Result of a `collect_data` run. `asteroid_data` / `approach_data` are
the sequences the source returns at line 95; `pre_trim` is a ghost copy
of the accumulator state at line 90, before the trim; `fetches` is the
ghost trace of fetch calls; `exitAtCeiling` tells whether the loop ended
through the year-ceiling break rather than the while condition; `raised`
is true when an extraction exception escaped `collect_data` (in that
case the data fields expose the in-memory accumulators, the function
itself returns nothing in Python); `fuelOut` marks exhaustion of the
fuel bound of the model, proved unreachable below. -/
structure CollectResult : Type where
  asteroid_data : List AsteroidInfo
  approach_data : List ApproachInfo
  pre_trim : ExtractorState
  fetches : List FetchEvent
  exitAtCeiling : Bool
  raised : Bool
  fuelOut : Bool

/-- Days from 2024-01-01 (the driver's start) to 2026-01-01: 2024 is a
leap year (366 days) and 2025 has 365. Since the driver's start dates
are 2024-01-01 plus a whole number of days, `start_date.year > 2025`
holds exactly when the offset is at least 731. -/
def yearCeilingOffset : Nat := 731

/-- Lines 90-95: trim both sequences to `TARGET_RECORDS` and return. -/
def finishCollect (T : Nat) (st : ExtractorState) (trace : List FetchEvent)
    (atCeiling : Bool) : CollectResult :=
  ⟨st.asteroid_data.take T, st.approach_data.take T, st, trace, atCeiling, false, false⟩

/-- Lines 63-88, the while loop of `collect_data`. `T` is the configured
`TARGET_RECORDS` (read from the external config module, modelled as a
parameter); `oracle k` is the HTTP outcome of the k-th request; `total`
is the `total_records` variable; `start` is the window start as a day
offset from 2024-01-01 (so `end_date = start + 6` and
`start = end + 1 = start + 7` on advance). The `time.sleep` calls have
no observable effect in this model. Fuel is structural; `collect_data`
passes 105 and `collect_terminates_bounded` shows the fuel branch is
never taken. -/
def collect_loop (T : Nat) (oracle : Nat → HttpOutcome) :
    Nat → ExtractorState → Nat → Nat → Nat → List FetchEvent → CollectResult
  | 0, st, _, _, _, trace =>
      ⟨st.asteroid_data, st.approach_data, st, trace, false, false, true⟩
  | fuel + 1, st, total, start, k, trace =>
    if total < T then
      match fetch_neo_data (oracle k) with
      | some neo_data =>
          match extract_asteroid_fields st neo_data with
          | (st2, true) =>
              ⟨st2.asteroid_data, st2.approach_data, st2, trace ++ [⟨start, true⟩],
               false, true, false⟩
          | (st2, false) =>
              if yearCeilingOffset ≤ start + 7 then
                finishCollect T st2 (trace ++ [⟨start, true⟩]) true
              else
                collect_loop T oracle fuel st2 st2.asteroid_data.length (start + 7) (k + 1)
                  (trace ++ [⟨start, true⟩])
      | none =>
          if yearCeilingOffset ≤ start + 7 then
            finishCollect T st (trace ++ [⟨start, false⟩]) true
          else
            collect_loop T oracle fuel st total (start + 7) (k + 1)
              (trace ++ [⟨start, false⟩])
    else finishCollect T st trace false

/-- Lines 56-95, `collect_data`: starts at 2024-01-01 (offset 0) with
empty accumulators and `total_records = 0`. -/
def collect_data (T : Nat) (oracle : Nat → HttpOutcome) : CollectResult :=
  collect_loop T oracle 105 ⟨[], []⟩ 0 0 0 []

/-! Store writer (database_setup.py). -/

/-- Contents of the two destination tables, one list entry per row. The
asteroid row carries exactly the six values bound by the INSERT at lines
57-66 (the fields of `asteroid_info`, in column order), the approach row
the seven values of lines 69-80, so the accumulator record types double
as row types. -/
structure DBState : Type where
  asteroids : List AsteroidInfo
  close_approach : List ApproachInfo

/-- Lines 22-52, `create_tables`: CREATE TABLE IF NOT EXISTS for both
tables — a fresh store (`none`) gets empty tables, an existing store is
left untouched. -/
def create_tables (existing : Option DBState) : DBState :=
  existing.getD ⟨[], []⟩

/-- Lines 54-87, `insert_data`: one plain INSERT per provided record, in
order, appending rows to whatever the tables already hold; no key
checks, no upsert, no deduplication, commit at the end. -/
def insert_data (db : DBState) (asteroid_data : List AsteroidInfo)
    (approach_data : List ApproachInfo) : DBState :=
  ⟨db.asteroids ++ asteroid_data, db.close_approach ++ approach_data⟩

/-! Concrete API data used by witnesses and counterexamples. -/

/-- Valid close-approach entry. -/
def apEx1 : Json := Json.obj
  [("close_approach_date", Json.str "2024-01-02"),
   ("relative_velocity", Json.obj [("kilometers_per_hour", Json.num 50000)]),
   ("miss_distance", Json.obj
     [("astronomical", Json.num 1), ("kilometers", Json.num 149597871),
      ("lunar", Json.num 389)]),
   ("orbiting_body", Json.str "Earth")]

/-- Second valid close-approach entry. -/
def apEx2 : Json := Json.obj
  [("close_approach_date", Json.str "2024-01-05"),
   ("relative_velocity", Json.obj [("kilometers_per_hour", Json.num 60000)]),
   ("miss_distance", Json.obj
     [("astronomical", Json.num 2), ("kilometers", Json.num 299195742),
      ("lunar", Json.num 778)]),
   ("orbiting_body", Json.str "Earth")]

/-- Malformed close-approach entry: `relative_velocity` is missing, so
`float(approach["relative_velocity"]["kilometers_per_hour"])` raises a
KeyError. -/
def apBad : Json := Json.obj
  [("close_approach_date", Json.str "2024-01-05"),
   ("miss_distance", Json.obj
     [("astronomical", Json.num 2), ("kilometers", Json.num 299195742),
      ("lunar", Json.num 778)]),
   ("orbiting_body", Json.str "Earth")]

/-- Builds a well-formed asteroid record with identifier 123 and the given
close-approach list. -/
def mkAsteroid (aps : List Json) : Json := Json.obj
  [("id", Json.num 123),
   ("name", Json.str "(2024 AB)"),
   ("absolute_magnitude_h", Json.num 22),
   ("estimated_diameter", Json.obj
     [("kilometers", Json.obj
       [("estimated_diameter_min", Json.num (1/10)),
        ("estimated_diameter_max", Json.num (1/4))])]),
   ("is_potentially_hazardous_asteroid", Json.bool false),
   ("close_approach_data", Json.arr aps)]

/-- Builds a one-date API page around the given asteroid list. -/
def mkPage (asteroids : List Json) : Json := Json.obj
  [("near_earth_objects", Json.obj [("2024-01-01", Json.arr asteroids)])]

/-- API page with exactly one object that has exactly two close-approach
entries. -/
def pageOneTwo : Json := mkPage [mkAsteroid [apEx1, apEx2]]

/-- API page whose only object is malformed in its second close-approach
entry. -/
def pageBadSecond : Json := mkPage [mkAsteroid [apEx1, apBad]]

/-- Oracle whose first request succeeds with `pageOneTwo` and whose later
requests all fail. -/
def oracleOneGood : Nat → HttpOutcome := fun k =>
  if k = 0 then HttpOutcome.response 200 (some pageOneTwo) else HttpOutcome.netError

/-- Oracle on which every request fails at the network level. -/
def oracleAllFail : Nat → HttpOutcome := fun _ => HttpOutcome.netError

/-- The `asteroid_info` record the extractor builds from `mkAsteroid aps`. -/
def infoEx : AsteroidInfo :=
  ⟨123, Json.str "(2024 AB)", 22, 1/10, 1/4, Json.bool false⟩

/-! Specification-side definitions used to state refinement claims. -/

/-- Length of one object's close-approach list as it appears on the page
(0 when the field is absent or not a list; under the validity hypothesis
of the claims that use this, the field is always a list). -/
def asteroidApproachCount (asteroid : Json) : Nat :=
  match asteroid.getField "close_approach_data" with
  | some (Json.arr aps) => aps.length
  | _ => 0

/-- Written after the spec's words for C4: the sum, over all objects
appearing under all dates of the page, of the length of that object's
close-approach list. -/
def specApproachCount (neo_data : Json) : Nat :=
  match neo_data.getField "near_earth_objects" with
  | some (Json.obj items) =>
      (items.map (fun kv =>
        match kv.2 with
        | Json.arr asts => (asts.map asteroidApproachCount).sum
        | _ => 0)).sum
  | _ => 0

/-- Tells whether processing one asteroid record raises. Stated on the
empty accumulator state; `asteroidStep_snd_const` below shows the raised
flag of `asteroidStep` does not depend on the state, so this is
state-independent. -/
def recordFails (asteroid : Json) : Bool :=
  (asteroidStep ⟨[], []⟩ asteroid).2

/-- Lockstep pairing of the two accumulator sequences: position i of the
approach sequence references exactly the identifier at position i of the
object sequence. -/
def Aligned (asts : List AsteroidInfo) (aps : List ApproachInfo) : Prop :=
  aps.map ApproachInfo.neo_reference_id = asts.map AsteroidInfo.id

/-! Inversion lemmas for the record builders. -/

/-- Inversion for a successful `buildAsteroidInfo`: the stored identifier
and diameter bounds are exactly the coerced upstream values. -/
theorem buildAsteroidInfo_fields (a : Json) (info : AsteroidInfo)
    (h : buildAsteroidInfo a = some info) :
    (a.getField "id").bind Json.toInt = some info.id ∧
    diamMinRaw a = some info.estimated_diameter_min_km ∧
    diamMaxRaw a = some info.estimated_diameter_max_km := by
  unfold buildAsteroidInfo at h
  split at h
  · exact Option.noConfusion h
  next i hid =>
    split at h
    · exact Option.noConfusion h
    next nm hnm =>
      split at h
      · exact Option.noConfusion h
      next mag hmag =>
        split at h
        · exact Option.noConfusion h
        next dmin hdmin =>
          split at h
          · exact Option.noConfusion h
          next dmax hdmax =>
            split at h
            · exact Option.noConfusion h
            next haz hhaz =>
              cases h
              exact ⟨hid, hdmin, hdmax⟩

/-- Inversion for a successful `buildApproachInfo`: the stored reference
identifier is the coerced `asteroid["id"]`. -/
theorem buildApproachInfo_ref (a ap : Json) (apInfo : ApproachInfo)
    (h : buildApproachInfo a ap = some apInfo) :
    (a.getField "id").bind Json.toInt = some apInfo.neo_reference_id := by
  unfold buildApproachInfo at h
  split at h
  · exact Option.noConfusion h
  next ref href =>
    split at h
    · exact Option.noConfusion h
    next dt hdt =>
      split at h
      · exact Option.noConfusion h
      next vel hvel =>
        split at h
        · exact Option.noConfusion h
        next au hau =>
          split at h
          · exact Option.noConfusion h
          next mkm hmkm =>
            split at h
            · exact Option.noConfusion h
            next mlun hmlun =>
              split at h
              · exact Option.noConfusion h
              next orb horb =>
                cases h
                exact href

/-- Both builders coerce the same `asteroid["id"]`, so an approach record
built next to an object record carries that record's identifier. -/
theorem build_ref_agree (a ap : Json) (info : AsteroidInfo) (apInfo : ApproachInfo)
    (h1 : buildAsteroidInfo a = some info) (h2 : buildApproachInfo a ap = some apInfo) :
    apInfo.neo_reference_id = info.id := by
  have e1 := (buildAsteroidInfo_fields a info h1).1
  have e2 := buildApproachInfo_ref a ap apInfo h2
  rw [e1] at e2
  exact (Option.some.inj e2).symm

/-! Claim C9. -/

/-- C9: for every produced object record, the normalized diameter bounds
equal the upstream values unchanged (no reordering or clamping), so
whenever the upstream minimum is at most the upstream maximum, the
produced record satisfies
`estimated_diameter_min_km ≤ estimated_diameter_max_km`. -/
theorem diameter_passthrough (a : Json) (info : AsteroidInfo) (qmin qmax : ℚ)
    (hb : buildAsteroidInfo a = some info)
    (hmin : diamMinRaw a = some qmin) (hmax : diamMaxRaw a = some qmax) :
    info.estimated_diameter_min_km = qmin ∧ info.estimated_diameter_max_km = qmax ∧
    (qmin ≤ qmax → info.estimated_diameter_min_km ≤ info.estimated_diameter_max_km) := by
  obtain ⟨-, h1, h2⟩ := buildAsteroidInfo_fields a info hb
  rw [h1] at hmin
  rw [h2] at hmax
  obtain rfl := Option.some.inj hmin
  obtain rfl := Option.some.inj hmax
  exact ⟨rfl, rfl, fun h => h⟩

/-- Witness for C9 at a concrete asteroid record with upstream diameter
bounds 1/10 and 1/4. -/
theorem diameter_passthrough_witness :
    infoEx.estimated_diameter_min_km = 1/10 ∧ infoEx.estimated_diameter_max_km = 1/4 ∧
    ((1 : ℚ)/10 ≤ 1/4 →
      infoEx.estimated_diameter_min_km ≤ infoEx.estimated_diameter_max_km) :=
  diameter_passthrough (mkAsteroid []) infoEx (1/10) (1/4) rfl rfl rfl

/-! Claim C8. -/

/-- C8: running `insert_data` twice against the same normalized batch,
starting from freshly created (empty) tables, doubles the row counts:
each run appends every provided record as new rows, with no upsert or
deduplication — the final tables are literally the batch repeated twice. -/
theorem insert_data_twice_doubles (A : List AsteroidInfo) (P : List ApproachInfo) :
    (insert_data (insert_data (create_tables none) A P) A P).asteroids.length
        = 2 * A.length
    ∧ (insert_data (insert_data (create_tables none) A P) A P).close_approach.length
        = 2 * P.length
    ∧ (insert_data (insert_data (create_tables none) A P) A P).asteroids = A ++ A
    ∧ (insert_data (insert_data (create_tables none) A P) A P).close_approach = P ++ P := by
  refine ⟨?_, ?_, ?_, ?_⟩ <;> simp [insert_data, create_tables, two_mul]

/-! Claim C7. -/

/-- C7 counterexample: the claim says the fetch client returns a
null/absent result on every non-2xx response, but a 304 response with a
parseable JSON body passes `raise_for_status` (which raises only for
status codes 400-599) and is returned. -/
theorem fetch_non2xx_body_cex :
    fetch_neo_data (HttpOutcome.response 304 (some (Json.obj []))) = some (Json.obj [])
    ∧ ¬ is2xx 304 := by
  constructor
  · rfl
  · intro h
    exact absurd h.2 (by norm_num)

/-- C7 (amended): `fetch_neo_data` returns the decoded JSON body exactly
when the response status is outside 400-599 (the range on which
`raise_for_status` raises — this includes every 2xx, but also 1xx/3xx
responses that surface after redirect handling) and the body parses;
it returns a null result on every network failure, every 4xx/5xx
response, and every unparseable body. It issues a single request —
the function consumes one `HttpOutcome` and performs no retry. -/
theorem fetch_characterization (outcome : HttpOutcome) (j : Json) :
    fetch_neo_data outcome = some j ↔
      ∃ status, outcome = HttpOutcome.response status (some j)
        ∧ ¬ (400 ≤ status ∧ status < 600) := by
  cases outcome with
  | netError => simp [fetch_neo_data]
  | response s body =>
    by_cases h : 400 ≤ s ∧ s < 600
    · cases body <;> simp [fetch_neo_data, h]
    · cases body with
      | none => simp [fetch_neo_data, h]
      | some b =>
        constructor
        · intro hjb
          have hbj : b = j := by simpa [fetch_neo_data, h] using hjb
          exact ⟨s, by rw [hbj], h⟩
        · rintro ⟨st, hst, hns⟩
          injection hst with h1 h2
          injection h2 with h3
          subst h1
          subst h3
          simp [fetch_neo_data, h]

/-! Claim C1. -/

/-- C1, evaluated on the claim's own scenario: an API page holding exactly
one object record with exactly two close-approach entries. The normalizer
appends TWO object records — `self.asteroid_data.append(asteroid_info)`
sits inside the close-approach loop, so the object record is appended
once per approach event — together with two approach-event records, all
four carrying identifier 123; no exception is raised. The claim (and the
spec) say one object record. -/
theorem extract_one_object_two_approaches_eval :
    (extract_asteroid_fields ⟨[], []⟩ pageOneTwo).1.asteroid_data.length = 2
    ∧ (extract_asteroid_fields ⟨[], []⟩ pageOneTwo).1.approach_data.length = 2
    ∧ (extract_asteroid_fields ⟨[], []⟩ pageOneTwo).2 = false
    ∧ (extract_asteroid_fields ⟨[], []⟩ pageOneTwo).1.approach_data.map
        ApproachInfo.neo_reference_id = [123, 123]
    ∧ (extract_asteroid_fields ⟨[], []⟩ pageOneTwo).1.asteroid_data.map
        AsteroidInfo.id = [123, 123] := by
  decide

/-! Claim C6. -/

/-- C6 counterexample: on a page whose only record is malformed in its
SECOND close-approach entry, the failure does propagate, but a partial,
best-effort extract of the malformed record is left behind: its object
record and its first approach event are already appended to the
accumulators when the exception is raised. -/
theorem extract_partial_record_cex :
    (extract_asteroid_fields ⟨[], []⟩ pageBadSecond).2 = true
    ∧ (extract_asteroid_fields ⟨[], []⟩ pageBadSecond).1.asteroid_data.length = 1
    ∧ (extract_asteroid_fields ⟨[], []⟩ pageBadSecond).1.approach_data.length = 1 := by
  decide

/-- Helper: the raised flag of the inner close-approach loop depends only
on the asteroid object and the approach list, not on the accumulator
state or the object record being appended. -/
theorem approachLoop_snd_const (a : Json) (info info2 : AsteroidInfo)
    (st st2 : ExtractorState) (aps : List Json) :
    (approachLoop a info st aps).2 = (approachLoop a info2 st2 aps).2 := by
  induction aps generalizing st st2 with
  | nil => rfl
  | cons ap rest ih =>
    unfold approachLoop
    cases buildApproachInfo a ap with
    | none => rfl
    | some apInfo => exact ih _ _

/-- Helper: the raised flag of `asteroidStep` does not depend on the
accumulator state, so `recordFails` describes it on every state. -/
theorem asteroidStep_snd_const (st : ExtractorState) (a : Json) :
    (asteroidStep st a).2 = recordFails a := by
  unfold recordFails asteroidStep
  cases buildAsteroidInfo a with
  | none => rfl
  | some info =>
    cases hf : a.getField "close_approach_data" with
    | none => rfl
    | some v =>
      cases v with
      | arr aps => exact approachLoop_snd_const a info info st ⟨[], []⟩ aps
      | null => rfl
      | bool b => rfl
      | num q => rfl
      | str s => rfl
      | obj fields => rfl

/-- Helper: a failing record anywhere in one date's list makes the whole
list fail. -/
theorem asteroidsLoop_fails (st : ExtractorState) (asts : List Json)
    (h : ∃ a ∈ asts, recordFails a = true) :
    (asteroidsLoop st asts).2 = true := by
  induction asts generalizing st with
  | nil => simp at h
  | cons a rest ih =>
    unfold asteroidsLoop
    cases hs : asteroidStep st a with
    | mk st2 flag =>
      cases flag with
      | true => rfl
      | false =>
        obtain ⟨w, hw, hwf⟩ := h
        rcases List.mem_cons.mp hw with rfl | hwrest
        · have := asteroidStep_snd_const st w
          rw [hs] at this
          rw [hwf] at this
          exact absurd this (by simp)
        · exact ih st2 ⟨w, hwrest, hwf⟩

/-- Helper: a failing record under any date of the page makes the dates
loop fail. -/
theorem datesLoop_fails (st : ExtractorState) (items : List (String × Json))
    (h : ∃ kv ∈ items, ∃ asts, kv.2 = Json.arr asts ∧ ∃ a ∈ asts, recordFails a = true) :
    (datesLoop st items).2 = true := by
  induction items generalizing st with
  | nil => simp at h
  | cons kv rest ih =>
    obtain ⟨w, hw, asts0, hasts0, hfail0⟩ := h
    match kv with
    | (date, v) =>
      cases v with
      | arr asts =>
        unfold datesLoop
        cases hl : asteroidsLoop st asts with
        | mk st2 flag =>
          cases flag with
          | true => rfl
          | false =>
            rcases List.mem_cons.mp hw with rfl | hwrest
            · have heq : asts = asts0 := by injection hasts0
              subst heq
              have := asteroidsLoop_fails st asts hfail0
              rw [hl] at this
              exact absurd this (by simp)
            · exact ih st2 ⟨w, hwrest, asts0, hasts0, hfail0⟩
      | null =>
        rcases List.mem_cons.mp hw with rfl | hwrest
        · exact Json.noConfusion hasts0
        · rfl
      | bool b =>
        rcases List.mem_cons.mp hw with rfl | hwrest
        · exact Json.noConfusion hasts0
        · rfl
      | num q =>
        rcases List.mem_cons.mp hw with rfl | hwrest
        · exact Json.noConfusion hasts0
        · rfl
      | str s =>
        rcases List.mem_cons.mp hw with rfl | hwrest
        · exact Json.noConfusion hasts0
        · rfl
      | obj fields =>
        rcases List.mem_cons.mp hw with rfl | hwrest
        · exact Json.noConfusion hasts0
        · rfl

/-- C6 (amended): normalization of a page that contains a record with a
missing or non-coercible required nested field fails as a whole — the
failure propagates out of the normalizer, aborting the run. However, the
appends made before the failure point persist in the accumulators (they
are in-place list mutations), so when the malformed field lies in a
close-approach entry after the first, a partial extract of the malformed
record itself — its object record paired with each earlier approach
event — remains behind (`extract_partial_record_cex`); no defaulting or
recovery of the malformed field ever happens. -/
theorem extract_malformed_page_fails (st : ExtractorState)
    (items : List (String × Json))
    (h : ∃ kv ∈ items, ∃ asts, kv.2 = Json.arr asts ∧ ∃ a ∈ asts, recordFails a = true) :
    (extract_asteroid_fields st (Json.obj [("near_earth_objects", Json.obj items)])).2
      = true := by
  have : (Json.obj [("near_earth_objects", Json.obj items)]).getField "near_earth_objects"
      = some (Json.obj items) := by
    simp [Json.getField, List.lookup]
  unfold extract_asteroid_fields
  rw [this]
  exact datesLoop_fails st items h

/-- Witness for C6 (amended), on the page whose only record has a
malformed second close-approach entry. -/
theorem extract_malformed_page_fails_witness :
    (extract_asteroid_fields ⟨[], []⟩
      (Json.obj [("near_earth_objects",
        Json.obj [("2024-01-01", Json.arr [mkAsteroid [apEx1, apBad]])])])).2 = true :=
  extract_malformed_page_fails ⟨[], []⟩
    [("2024-01-01", Json.arr [mkAsteroid [apEx1, apBad]])]
    ⟨("2024-01-01", Json.arr [mkAsteroid [apEx1, apBad]]), by simp,
      [mkAsteroid [apEx1, apBad]], rfl,
      mkAsteroid [apEx1, apBad], by simp, by decide⟩

/-! Claim C4. -/

/-- Helper: a completed inner loop appends exactly one approach record —
and, because of the placement of the appends, also one object record —
per close-approach entry. -/
theorem approachLoop_count (a : Json) (info : AsteroidInfo)
    (st : ExtractorState) (aps : List Json) (st2 : ExtractorState)
    (h : approachLoop a info st aps = (st2, false)) :
    st2.approach_data.length = st.approach_data.length + aps.length ∧
    st2.asteroid_data.length = st.asteroid_data.length + aps.length := by
  induction aps generalizing st with
  | nil =>
    cases h
    simp
  | cons ap rest ih =>
    unfold approachLoop at h
    cases hb : buildApproachInfo a ap with
    | none =>
      rw [hb] at h
      simp at h
    | some apInfo =>
      rw [hb] at h
      have := ih _ h
      simp [List.length_append] at this ⊢
      omega

/-- Helper: a successfully processed asteroid contributes exactly its
close-approach-list length to the approach accumulator. -/
theorem asteroidStep_count (st : ExtractorState) (a : Json) (st2 : ExtractorState)
    (h : asteroidStep st a = (st2, false)) :
    st2.approach_data.length = st.approach_data.length + asteroidApproachCount a := by
  unfold asteroidStep at h
  cases hb : buildAsteroidInfo a with
  | none =>
    rw [hb] at h
    simp at h
  | some info =>
    rw [hb] at h
    cases hf : a.getField "close_approach_data" with
    | none =>
      rw [hf] at h
      simp at h
    | some v =>
      rw [hf] at h
      unfold asteroidApproachCount
      rw [hf]
      cases v with
      | arr aps => exact (approachLoop_count a info st aps st2 h).1
      | null => simp at h
      | bool b => simp at h
      | num q => simp at h
      | str s => simp at h
      | obj fields => simp at h

/-- Helper: one date's completed loop contributes the sum of its objects'
close-approach-list lengths. -/
theorem asteroidsLoop_count (st : ExtractorState) (asts : List Json)
    (st2 : ExtractorState) (h : asteroidsLoop st asts = (st2, false)) :
    st2.approach_data.length
      = st.approach_data.length + (asts.map asteroidApproachCount).sum := by
  induction asts generalizing st with
  | nil =>
    cases h
    simp
  | cons a rest ih =>
    unfold asteroidsLoop at h
    cases hs : asteroidStep st a with
    | mk stm flag =>
      rw [hs] at h
      cases flag with
      | true => simp at h
      | false =>
        have h1 := asteroidStep_count st a stm hs
        have h2 := ih stm h
        simp only [List.map_cons, List.sum_cons] at h2 ⊢
        omega

/-- Helper: the completed dates loop contributes the page-wide sum. -/
theorem datesLoop_count (st : ExtractorState) (items : List (String × Json))
    (st2 : ExtractorState) (h : datesLoop st items = (st2, false)) :
    st2.approach_data.length = st.approach_data.length
      + (items.map (fun kv =>
          match kv.2 with
          | Json.arr asts => (asts.map asteroidApproachCount).sum
          | _ => 0)).sum := by
  induction items generalizing st with
  | nil =>
    cases h
    simp
  | cons kv rest ih =>
    match kv with
    | (date, v) =>
      cases v with
      | arr asts =>
        unfold datesLoop at h
        cases hl : asteroidsLoop st asts with
        | mk stm flag =>
          rw [hl] at h
          cases flag with
          | true => simp at h
          | false =>
            have h1 := asteroidsLoop_count st asts stm hl
            have h2 := ih stm h
            simp only [List.map_cons, List.sum_cons] at h2 ⊢
            omega
      | null => unfold datesLoop at h; simp at h
      | bool b => unfold datesLoop at h; simp at h
      | num q => unfold datesLoop at h; simp at h
      | str s => unfold datesLoop at h; simp at h
      | obj fields => unfold datesLoop at h; simp at h

/-- C4: for every API page the normalizer completes without raising, the
number of approach-event records it appends equals the sum, over all
objects appearing under all dates of the page, of the length of that
object's close-approach list. -/
theorem extract_approach_count_eq_page_sum (st : ExtractorState) (neo_data : Json)
    (h : (extract_asteroid_fields st neo_data).2 = false) :
    (extract_asteroid_fields st neo_data).1.approach_data.length
      = st.approach_data.length + specApproachCount neo_data := by
  cases hf : neo_data.getField "near_earth_objects" with
  | none =>
    have he : extract_asteroid_fields st neo_data = (st, true) := by
      unfold extract_asteroid_fields
      rw [hf]
    rw [he] at h
    simp at h
  | some v =>
    cases v with
    | obj items =>
      have he : extract_asteroid_fields st neo_data = datesLoop st items := by
        unfold extract_asteroid_fields
        rw [hf]
      have hs : specApproachCount neo_data
          = (items.map (fun kv =>
              match kv.2 with
              | Json.arr asts => (asts.map asteroidApproachCount).sum
              | _ => 0)).sum := by
        unfold specApproachCount
        rw [hf]
      rw [he] at h ⊢
      rw [hs]
      cases hd : datesLoop st items with
      | mk st2 flag =>
        rw [hd] at h
        cases flag with
        | true => simp at h
        | false => exact datesLoop_count st items st2 hd
    | null =>
      have he : extract_asteroid_fields st neo_data = (st, true) := by
        unfold extract_asteroid_fields
        rw [hf]
      rw [he] at h
      simp at h
    | bool b =>
      have he : extract_asteroid_fields st neo_data = (st, true) := by
        unfold extract_asteroid_fields
        rw [hf]
      rw [he] at h
      simp at h
    | num q =>
      have he : extract_asteroid_fields st neo_data = (st, true) := by
        unfold extract_asteroid_fields
        rw [hf]
      rw [he] at h
      simp at h
    | str s =>
      have he : extract_asteroid_fields st neo_data = (st, true) := by
        unfold extract_asteroid_fields
        rw [hf]
      rw [he] at h
      simp at h
    | arr xs =>
      have he : extract_asteroid_fields st neo_data = (st, true) := by
        unfold extract_asteroid_fields
        rw [hf]
      rw [he] at h
      simp at h

/-- Witness for C4 on the one-object, two-approach page. -/
theorem extract_approach_count_eq_page_sum_witness :
    (extract_asteroid_fields ⟨[], []⟩ pageOneTwo).1.approach_data.length
      = (ExtractorState.mk [] []).approach_data.length + specApproachCount pageOneTwo :=
  extract_approach_count_eq_page_sum ⟨[], []⟩ pageOneTwo (by decide)

/-! Collection-driver lemmas. -/

/-- Helper: the loop never exhausts its fuel when the fuel covers the
distance left to the year ceiling — each iteration moves the window
start up by 7 days, unconditionally. -/
theorem collect_loop_no_fuelOut (T : Nat) (oracle : Nat → HttpOutcome)
    (fuel : Nat) (st : ExtractorState) (total start k : Nat) (trace : List FetchEvent)
    (h1 : start < yearCeilingOffset) (h2 : yearCeilingOffset ≤ start + 7 * fuel) :
    (collect_loop T oracle fuel st total start k trace).fuelOut = false := by
  induction fuel generalizing st total start k trace with
  | zero => omega
  | succ fuel ih =>
    unfold collect_loop
    split
    · split
      · split
        · rfl
        · split
          · rfl
          next hc => exact ih _ _ _ _ _ (by omega) (by omega)
      · split
        · rfl
        next hc => exact ih _ _ _ _ _ (by omega) (by omega)
    · rfl

/-- Helper: each loop iteration issues exactly one fetch, so the trace
grows by at most the fuel. -/
theorem collect_loop_fetch_bound (T : Nat) (oracle : Nat → HttpOutcome)
    (fuel : Nat) (st : ExtractorState) (total start k : Nat) (trace : List FetchEvent) :
    (collect_loop T oracle fuel st total start k trace).fetches.length
      ≤ trace.length + fuel := by
  induction fuel generalizing st total start k trace with
  | zero => simp [collect_loop]
  | succ fuel ih =>
    unfold collect_loop
    split
    · split
      next neo hF =>
        split
        next st2 hE =>
          simp
        next st2 hE =>
          split
          · simp [finishCollect]
          · have h := ih st2 st2.asteroid_data.length (start + 7) (k + 1)
              (trace ++ [FetchEvent.mk start true])
            simp only [List.length_append, List.length_cons, List.length_nil] at h
            omega
      next hF =>
        split
        · simp [finishCollect]
        · have h := ih st total (start + 7) (k + 1) (trace ++ [FetchEvent.mk start false])
          simp only [List.length_append, List.length_cons, List.length_nil] at h
          omega
    · simp [finishCollect]

/-- Helper: the successive fetch windows form the arithmetic progression
0, 7, 14, ... — the window start is advanced by 7 days on every
iteration, successful or not. -/
theorem collect_loop_windows (T : Nat) (oracle : Nat → HttpOutcome)
    (fuel : Nat) (st : ExtractorState) (total start k : Nat) (trace : List FetchEvent)
    (htr : trace.map FetchEvent.windowStart
      = (List.range trace.length).map (fun j => 7 * j))
    (hst : start = 7 * trace.length) :
    (collect_loop T oracle fuel st total start k trace).fetches.map FetchEvent.windowStart
      = (List.range
          (collect_loop T oracle fuel st total start k trace).fetches.length).map
          (fun j => 7 * j) := by
  induction fuel generalizing st total start k trace with
  | zero => simpa [collect_loop] using htr
  | succ fuel ih =>
    have hext : ∀ b : Bool, (trace ++ [FetchEvent.mk start b]).map FetchEvent.windowStart
        = (List.range (trace ++ [FetchEvent.mk start b]).length).map (fun j => 7 * j) := by
      intro b
      simp only [List.map_append, List.length_append, List.length_cons, List.length_nil,
        List.map_cons, List.map_nil, htr, hst]
      rw [List.range_succ]
      simp
    unfold collect_loop
    split
    · split
      next neo hF =>
        split
        next st2 hE => exact hext true
        next st2 hE =>
          split
          · exact hext true
          · exact ih st2 st2.asteroid_data.length (start + 7) (k + 1) _
              (hext true) (by simp [hst]; ring)
      next hF =>
        split
        · exact hext false
        · exact ih st total (start + 7) (k + 1) _
            (hext false) (by simp [hst]; ring)
    · simpa [finishCollect] using htr

/-- Helper: the i-th fetch of a collection run uses the window starting
7 i days after 2024-01-01, whatever the oracle answers. -/
theorem collect_fetch_window (T : Nat) (oracle : Nat → HttpOutcome) (i : Nat)
    (ev : FetchEvent) (h : (collect_data T oracle).fetches[i]? = some ev) :
    ev.windowStart = 7 * i := by
  have hmap := collect_loop_windows T oracle 105 ⟨[], []⟩ 0 0 0 [] (by simp) (by simp)
  have hi : i < (collect_data T oracle).fetches.length := by
    by_contra hc
    rw [List.getElem?_eq_none (by omega)] at h
    exact Option.noConfusion h
  have hcongr := congrArg (fun l => l[i]?) hmap
  simp only [List.getElem?_map] at hcongr
  unfold collect_data at h hi
  rw [h] at hcongr
  rw [List.getElem?_range (by simpa using hi)] at hcongr
  simpa using hcongr

/-! Claim C10. -/

/-- C10: the collection loop terminates for every possible sequence of
fetch outcomes, including one in which every fetch fails: the window
start is advanced by 7 days on every iteration regardless of fetch
success or failure (the i-th fetch always uses window start 7 i), so the
year-2025 ceiling check ends the loop after at most 105 iterations even
when no records are ever accumulated; the fuel bound of the model is
never reached. -/
theorem collect_terminates_bounded (T : Nat) (oracle : Nat → HttpOutcome) :
    (collect_data T oracle).fuelOut = false
    ∧ (collect_data T oracle).fetches.length ≤ 105
    ∧ ∀ i ev, (collect_data T oracle).fetches[i]? = some ev
        → ev.windowStart = 7 * i := by
  refine ⟨?_, ?_, ?_⟩
  · exact collect_loop_no_fuelOut T oracle 105 ⟨[], []⟩ 0 0 0 []
      (by norm_num [yearCeilingOffset]) (by norm_num [yearCeilingOffset])
  · simpa using collect_loop_fetch_bound T oracle 105 ⟨[], []⟩ 0 0 0 []
  · exact fun i ev h => collect_fetch_window T oracle i ev h

/-- Witness for C10 on the all-failing oracle with target 1. -/
theorem collect_terminates_bounded_witness :
    (collect_data 1 oracleAllFail).fuelOut = false
    ∧ (collect_data 1 oracleAllFail).fetches.length ≤ 105
    ∧ (FetchEvent.mk 7 false).windowStart = 7 * 1 :=
  ⟨(collect_terminates_bounded 1 oracleAllFail).1,
   (collect_terminates_bounded 1 oracleAllFail).2.1,
   (collect_terminates_bounded 1 oracleAllFail).2.2 1 (FetchEvent.mk 7 false) (by decide)⟩

/-! Claim C2. -/

/-- C2 counterexample: with every fetch failing, the first fetch uses the
window starting at day 0 (2024-01-01) and fails, and the fetch issued
next — after the long retry delay — uses the window starting at day 7:
the driver does NOT retry the identical, unadvanced window. -/
theorem failed_fetch_window_advances_cex :
    (collect_data 1 oracleAllFail).fetches[0]? = some (FetchEvent.mk 0 false)
    ∧ (collect_data 1 oracleAllFail).fetches[1]? = some (FetchEvent.mk 7 false)
    ∧ (7 : Nat) ≠ 0 := by
  refine ⟨by decide, by decide, by decide⟩

/-- C2 (amended): when a fetch for a date window fails, the driver waits
the longer fixed delay but does NOT retry that window: the window start
is advanced by 7 days after every fetch, failed or successful, so the
fetch issued after a failed one uses the next window. -/
theorem fetch_window_advances_after_failure (T : Nat) (oracle : Nat → HttpOutcome)
    (i : Nat) (ev1 ev2 : FetchEvent)
    (h1 : (collect_data T oracle).fetches[i]? = some ev1)
    (h2 : (collect_data T oracle).fetches[i + 1]? = some ev2)
    (_hfail : ev1.success = false) :
    ev2.windowStart = ev1.windowStart + 7 := by
  rw [collect_fetch_window T oracle i ev1 h1,
    collect_fetch_window T oracle (i + 1) ev2 h2]
  ring

/-- Witness for C2 (amended) on the all-failing oracle: the fetch after
the failed day-0 fetch uses day 7. -/
theorem fetch_window_advances_after_failure_witness :
    (FetchEvent.mk 7 false).windowStart = (FetchEvent.mk 0 false).windowStart + 7 :=
  fetch_window_advances_after_failure 1 oracleAllFail 0 (FetchEvent.mk 0 false)
    (FetchEvent.mk 7 false) (by decide) (by decide) rfl

/-! Claim C3. -/

/-- Helper: a run that ends without an exception and without exhausting
the fuel went through the final trim — the returned sequences are the
pre-trim accumulators truncated to T — and an exit holding fewer than T
raw records can only have happened at the year ceiling (the while
condition cannot end the loop with fewer, since `total_records` never
exceeds the accumulator length). -/
theorem collect_loop_trim (T : Nat) (oracle : Nat → HttpOutcome)
    (fuel : Nat) (st : ExtractorState) (total start k : Nat) (trace : List FetchEvent)
    (hinv : total ≤ st.asteroid_data.length) :
    (collect_loop T oracle fuel st total start k trace).raised = false →
    (collect_loop T oracle fuel st total start k trace).fuelOut = false →
    (collect_loop T oracle fuel st total start k trace).asteroid_data
      = (collect_loop T oracle fuel st total start k trace).pre_trim.asteroid_data.take T
    ∧ (collect_loop T oracle fuel st total start k trace).approach_data
      = (collect_loop T oracle fuel st total start k trace).pre_trim.approach_data.take T
    ∧ ((collect_loop T oracle fuel st total start k trace).pre_trim.asteroid_data.length
          < T
        → (collect_loop T oracle fuel st total start k trace).exitAtCeiling = true) := by
  induction fuel generalizing st total start k trace with
  | zero =>
    intro _ hf
    exact absurd hf (by simp [collect_loop])
  | succ fuel ih =>
    unfold collect_loop
    split
    · split
      next neo hF =>
        split
        next st2 hE =>
          intro hr _
          exact absurd hr (by simp)
        next st2 hE =>
          split
          · intro _ _
            exact ⟨rfl, rfl, fun _ => rfl⟩
          · exact ih st2 st2.asteroid_data.length (start + 7) (k + 1) _ (le_refl _)
      next hF =>
        split
        · intro _ _
          exact ⟨rfl, rfl, fun _ => rfl⟩
        · exact ih st total (start + 7) (k + 1) _ hinv
    next hT =>
      intro _ _
      refine ⟨rfl, rfl, fun hlt => absurd hlt (by simp [finishCollect]; omega)⟩

/-- C3: for every complete (exception-free) collection run with target T,
the returned object-record count is `min T (raw count)`: when at least T
raw object records were accumulated before the loop ended, exactly T are
returned; otherwise the loop can only have ended at the year-2025
ceiling, fewer than T records are returned, and the final truncation is
a no-op (the returned sequence IS the untrimmed accumulator). -/
theorem collect_target_or_ceiling (T : Nat) (oracle : Nat → HttpOutcome)
    (h : (collect_data T oracle).raised = false) :
    ((collect_data T oracle).asteroid_data.length
        = min T (collect_data T oracle).pre_trim.asteroid_data.length)
    ∧ (T ≤ (collect_data T oracle).pre_trim.asteroid_data.length
        → (collect_data T oracle).asteroid_data.length = T)
    ∧ ((collect_data T oracle).pre_trim.asteroid_data.length < T
        → (collect_data T oracle).asteroid_data
            = (collect_data T oracle).pre_trim.asteroid_data
          ∧ (collect_data T oracle).exitAtCeiling = true) := by
  have hf : (collect_data T oracle).fuelOut = false :=
    collect_loop_no_fuelOut T oracle 105 ⟨[], []⟩ 0 0 0 []
      (by norm_num [yearCeilingOffset]) (by norm_num [yearCeilingOffset])
  obtain ⟨e1, e2, e3⟩ :=
    collect_loop_trim T oracle 105 ⟨[], []⟩ 0 0 0 [] (by simp) h hf
  refine ⟨?_, ?_, ?_⟩
  · rw [show (collect_data T oracle).asteroid_data
        = (collect_data T oracle).pre_trim.asteroid_data.take T from e1]
    exact List.length_take _ _
  · intro hT
    rw [show (collect_data T oracle).asteroid_data
        = (collect_data T oracle).pre_trim.asteroid_data.take T from e1]
    rw [List.length_take]
    omega
  · intro hlt
    refine ⟨?_, e3 hlt⟩
    rw [show (collect_data T oracle).asteroid_data
        = (collect_data T oracle).pre_trim.asteroid_data.take T from e1]
    exact List.take_of_length_le (by omega)

/-- Witness for C3 with target 1 and a first fetch that returns two raw
records: exactly 1 record is returned. -/
theorem collect_target_or_ceiling_witness :
    ((collect_data 1 oracleOneGood).asteroid_data.length
        = min 1 (collect_data 1 oracleOneGood).pre_trim.asteroid_data.length)
    ∧ (1 ≤ (collect_data 1 oracleOneGood).pre_trim.asteroid_data.length
        → (collect_data 1 oracleOneGood).asteroid_data.length = 1)
    ∧ ((collect_data 1 oracleOneGood).pre_trim.asteroid_data.length < 1
        → (collect_data 1 oracleOneGood).asteroid_data
            = (collect_data 1 oracleOneGood).pre_trim.asteroid_data
          ∧ (collect_data 1 oracleOneGood).exitAtCeiling = true) :=
  collect_target_or_ceiling 1 oracleOneGood (by decide)

/-! Claim C5. -/

/-- Helper: the inner loop preserves the lockstep pairing — it appends
the object record and its approach record together, and the approach
record references that object record's identifier. -/
theorem approachLoop_aligned (a : Json) (info : AsteroidInfo)
    (st : ExtractorState) (aps : List Json)
    (hb : buildAsteroidInfo a = some info)
    (hal : Aligned st.asteroid_data st.approach_data) :
    Aligned (approachLoop a info st aps).1.asteroid_data
      (approachLoop a info st aps).1.approach_data := by
  induction aps generalizing st with
  | nil => exact hal
  | cons ap rest ih =>
    unfold approachLoop
    split
    · exact hal
    next apInfo hap =>
      apply ih
      unfold Aligned at hal ⊢
      simp only [List.map_append, List.map_cons, List.map_nil]
      rw [hal, build_ref_agree a ap info apInfo hb hap]

/-- Helper: processing one asteroid preserves the lockstep pairing. -/
theorem asteroidStep_aligned (st : ExtractorState) (a : Json)
    (hal : Aligned st.asteroid_data st.approach_data) :
    Aligned (asteroidStep st a).1.asteroid_data (asteroidStep st a).1.approach_data := by
  unfold asteroidStep
  split
  · exact hal
  next info hb =>
    split
    next aps hf => exact approachLoop_aligned a info st aps hb hal
    next hf => exact hal
    next hf => exact hal

/-- Helper: one date's loop preserves the lockstep pairing. -/
theorem asteroidsLoop_aligned (st : ExtractorState) (asts : List Json)
    (hal : Aligned st.asteroid_data st.approach_data) :
    Aligned (asteroidsLoop st asts).1.asteroid_data
      (asteroidsLoop st asts).1.approach_data := by
  induction asts generalizing st with
  | nil => exact hal
  | cons a rest ih =>
    unfold asteroidsLoop
    have hstep := asteroidStep_aligned st a hal
    split
    next st2 heq =>
      rw [heq] at hstep
      simpa using hstep
    next st2 heq =>
      rw [heq] at hstep
      exact ih st2 (by simpa using hstep)

/-- Helper: the dates loop preserves the lockstep pairing. -/
theorem datesLoop_aligned (st : ExtractorState) (items : List (String × Json))
    (hal : Aligned st.asteroid_data st.approach_data) :
    Aligned (datesLoop st items).1.asteroid_data
      (datesLoop st items).1.approach_data := by
  induction items generalizing st with
  | nil => exact hal
  | cons kv rest ih =>
    match kv with
    | (date, v) =>
      cases v with
      | arr asts =>
        unfold datesLoop
        have hstep := asteroidsLoop_aligned st asts hal
        cases hl : asteroidsLoop st asts with
        | mk st2 flag =>
          rw [hl] at hstep
          cases flag with
          | true => simpa using hstep
          | false => exact ih st2 (by simpa using hstep)
      | null => simpa [datesLoop] using hal
      | bool b => simpa [datesLoop] using hal
      | num q => simpa [datesLoop] using hal
      | str s => simpa [datesLoop] using hal
      | obj fields => simpa [datesLoop] using hal

/-- Helper: the normalizer preserves the lockstep pairing even when it
raises, because the two appends always happen together. -/
theorem extract_aligned (st : ExtractorState) (neo : Json)
    (hal : Aligned st.asteroid_data st.approach_data) :
    Aligned (extract_asteroid_fields st neo).1.asteroid_data
      (extract_asteroid_fields st neo).1.approach_data := by
  unfold extract_asteroid_fields
  split
  next items heq => exact datesLoop_aligned st items hal
  next heq => exact hal
  next heq => exact hal

/-- Helper: every branch of the collection loop — normal exit with trim,
exception exit, fuel exit — returns lockstep-paired sequences. -/
theorem collect_loop_aligned (T : Nat) (oracle : Nat → HttpOutcome)
    (fuel : Nat) (st : ExtractorState) (total start k : Nat) (trace : List FetchEvent)
    (hal : Aligned st.asteroid_data st.approach_data) :
    Aligned (collect_loop T oracle fuel st total start k trace).asteroid_data
      (collect_loop T oracle fuel st total start k trace).approach_data := by
  induction fuel generalizing st total start k trace with
  | zero => simpa [collect_loop] using hal
  | succ fuel ih =>
    unfold collect_loop
    split
    · split
      next neo hF =>
        have hstep := extract_aligned st neo hal
        split
        next st2 hE =>
          rw [hE] at hstep
          simpa using hstep
        next st2 hE =>
          rw [hE] at hstep
          split
          · unfold Aligned at hstep ⊢
            simp only [finishCollect, List.map_take]
            rw [hstep]
          · exact ih st2 _ _ _ _ hstep
      next hF =>
        split
        · unfold Aligned at hal ⊢
          simp only [finishCollect, List.map_take]
          rw [hal]
        · exact ih st _ _ _ _ hal
    · unfold Aligned at hal ⊢
      simp only [finishCollect, List.map_take]
      rw [hal]

/-- Helper: lockstep pairing gives referential completeness — every
approach record's reference identifier is the identifier of some object
record of the paired sequence. -/
theorem aligned_mem (asts : List AsteroidInfo) (aps : List ApproachInfo)
    (h : Aligned asts aps) (ap : ApproachInfo) (hm : ap ∈ aps) :
    ∃ a ∈ asts, ap.neo_reference_id = a.id := by
  unfold Aligned at h
  have hlen : aps.length = asts.length := by
    have := congrArg List.length h
    simpa using this
  obtain ⟨i, hi, hget⟩ := List.getElem_of_mem hm
  have hi2 : i < asts.length := by omega
  have hcongr := congrArg (fun l => l[i]?) h
  simp only [List.getElem?_map] at hcongr
  rw [List.getElem?_eq_getElem hi, List.getElem?_eq_getElem hi2] at hcongr
  simp only [Option.map_some'] at hcongr
  refine ⟨asts[i], List.getElem_mem hi2, ?_⟩
  rw [← hget]
  exact Option.some.inj hcongr

/-- C5: after every complete (exception-free) collection run, including
the final truncation of both sequences to the target count, every
approach-event record's reference identifier equals the identifier of
some object record present in the returned object-record sequence of the
same batch. -/
theorem collect_ref_integrity (T : Nat) (oracle : Nat → HttpOutcome)
    (_h : (collect_data T oracle).raised = false) :
    ∀ ap ∈ (collect_data T oracle).approach_data,
      ∃ a ∈ (collect_data T oracle).asteroid_data, ap.neo_reference_id = a.id := by
  intro ap hap
  have hal := collect_loop_aligned T oracle 105 ⟨[], []⟩ 0 0 0 [] (by unfold Aligned; rfl)
  exact aligned_mem _ _ hal ap hap

/-- Witness for C5: the single returned approach record of the target-1
run references identifier 123, carried by a returned object record. -/
theorem collect_ref_integrity_witness :
    ∃ a ∈ (collect_data 1 oracleOneGood).asteroid_data,
      (ApproachInfo.mk 123 (Json.str "2024-01-02") 50000 1 149597871 389
        (Json.str "Earth")).neo_reference_id = a.id :=
  collect_ref_integrity 1 oracleOneGood (by decide)
    (ApproachInfo.mk 123 (Json.str "2024-01-02") 50000 1 149597871 389 (Json.str "Earth"))
    (List.Mem.head _)

end Nasa
